import Mathlib

/-
Verification of the quiz application (quiz_app.py) and the Fibonacci
script (fibonacci.py) from the Python-Projects repository, via a shallow
embedding of the Python code into Lean.

Modelling conventions:
- Python strings are Lean `String`; the normalisation helpers
  (`strip`, `lower`) operate on the underlying character list so that
  concrete instances evaluate by `decide`.  Only the ASCII fragment of
  Python's Unicode-aware `strip`/`lower`/`int` is modelled; every string
  appearing in the repository and in the claims is ASCII.
- `int(s)` is modelled by `pyInt` (whitespace stripping, optional sign,
  digits with the Python 3.6 single-underscore separators); failure
  (`ValueError`) is `none`.
- Python list subscription `l[i]`, including negative indices and
  `IndexError`, is modelled by `pyIndex`.
- JSON values are the inductive `Json`; a JSON file on disk is a
  `FileState` (missing, unparseable, or parsed to a `Json` value).
- Python exceptions that escape to the caller are modelled with
  `Except PyErr` / `Option PyErr`; a raised `KeyError k` is
  `PyErr.keyError k`.
- Console output is modelled as the list of printed lines; interactive
  `input()` calls are modelled by passing the entered strings as
  arguments.
-/

/-! ## Python string primitives -/

/-- The ASCII whitespace characters removed by Python `str.strip()`. -/
def isPySpace (c : Char) : Bool :=
  c == ' ' || c == '\t' || c == '\n' || c == '\r' || c == '\x0b' || c == '\x0c'

/-- Python `str.strip()` on the character list: drop whitespace from both ends. -/
def stripList (l : List Char) : List Char :=
  ((l.dropWhile isPySpace).reverse.dropWhile isPySpace).reverse

/-- Python `str.lower()` on one ASCII character. -/
def lowerChar (c : Char) : Char :=
  if 'A' ≤ c ∧ c ≤ 'Z' then Char.ofNat (c.toNat + 32) else c

/-- `s.strip().lower()` — the normalisation applied by the graders. -/
def pyNorm (s : String) : List Char :=
  (stripList s.data).map lowerChar

/-- Digit-run validity for Python `int()`: non-empty, only digits and
underscores, and every underscore strictly between two digits
(no leading, trailing or doubled underscore). -/
def intDigitsOk (l : List Char) : Bool :=
  (!l.isEmpty)
  && l.all (fun c => c.isDigit || c == '_')
  && !(l.head? == some '_')
  && !(l.getLast? == some '_')
  && (l.zip l.tail).all (fun p => !(p.1 == '_' && p.2 == '_'))

/-- Numeric value of a digit run (underscores already filtered out). -/
def digitsVal (l : List Char) : Nat :=
  l.foldl (fun acc c => acc * 10 + (c.toNat - '0'.toNat)) 0

/-- Magnitude part of Python `int()`: validate and evaluate the digit run. -/
def intBody (l : List Char) : Option Nat :=
  if intDigitsOk l then some (digitsVal (l.filter (fun c => c != '_'))) else none

/-- Python `int(s)` restricted to ASCII: strip whitespace, optional sign,
digit run.  `none` models a raised `ValueError`. -/
def pyInt (s : String) : Option Int :=
  match stripList s.data with
  | '+' :: rest => (intBody rest).map Int.ofNat
  | '-' :: rest => (intBody rest).map (fun n => -(Int.ofNat n : Int))
  | rest => (intBody rest).map Int.ofNat

/-- Python list subscription `l[i]`: non-negative indices from the front,
negative indices from the back, `none` models a raised `IndexError`. -/
def pyIndex {α : Type} (l : List α) (i : Int) : Option α :=
  if 0 ≤ i then
    if i < (l.length : Int) then l.get? i.toNat else none
  else
    if -(l.length : Int) ≤ i then l.get? (i + (l.length : Int)).toNat else none

/-! ## The Question model (quiz_app.py lines 8-130) -/

/-- The three runtime classes `Question`, `MultipleChoiceQuestion`,
`TrueFalseQuestion` as a sum type.  Field names follow the source. -/
inductive PyQuestion : Type where
  | plain (question_text correct_answer : String)
  | mc (question_text : String) (choices : List String) (correct_answer : String)
  | tf (question_text correct_answer : String)
deriving DecidableEq

/-- `self.correct_answer` of any question. -/
def PyQuestion.correct_answer : PyQuestion → String
  | .plain _ ca => ca
  | .mc _ _ ca => ca
  | .tf _ ca => ca

/-- `self.question_text` of any question. -/
def PyQuestion.question_text : PyQuestion → String
  | .plain qt _ => qt
  | .mc qt _ _ => qt
  | .tf qt _ => qt

/-- `Question.is_correct` (line 18):
`answer.strip().lower() == self.correct_answer.strip().lower()`.
Inherited unchanged by `TrueFalseQuestion`. -/
def Question.is_correct (correct_answer answer : String) : Bool :=
  pyNorm answer == pyNorm correct_answer

/-- `MultipleChoiceQuestion.is_correct` (lines 69-78):
`int(answer) - 1` subscripts `self.choices`; `ValueError` and
`IndexError` are caught and yield `False`. -/
def MultipleChoiceQuestion.is_correct
    (choices : List String) (correct_answer answer : String) : Bool :=
  match pyInt answer with
  | none => false
  | some v =>
    match pyIndex choices (v - 1) with
    | none => false
    | some choice => pyNorm choice == pyNorm correct_answer

/-- Dynamic dispatch of `is_correct` over the three classes. -/
def PyQuestion.is_correct : PyQuestion → String → Bool
  | .plain _ ca, a => Question.is_correct ca a
  | .mc _ cs ca, a => MultipleChoiceQuestion.is_correct cs ca a
  | .tf _ ca, a => Question.is_correct ca a

/-- `display` (lines 25-30, 61-67, 107-113) as the list of printed lines:
the prompt, then for MultipleChoice the 1-indexed choice labels, and for
TrueFalse the fixed two labels. -/
def PyQuestion.display : PyQuestion → List String
  | .plain qt _ => [qt]
  | .mc qt cs _ => qt :: (cs.enum.map fun ic => toString (ic.1 + 1) ++ ". " ++ ic.2)
  | .tf qt _ => [qt, "1. True", "2. False"]

/-! ## JSON values and serialization (quiz_app.py lines 32-41, 80-89, 115-123, 167-179) -/

/-- JSON values as produced by `json.load`. -/
inductive Json : Type where
  | null : Json
  | bool (b : Bool) : Json
  | num (n : Int) : Json
  | str (s : String) : Json
  | arr (xs : List Json) : Json
  | obj (kvs : List (String × Json)) : Json

/-- Python dict lookup `d[k]` on a JSON object; `json.load` keeps the
last occurrence of a duplicated key, hence the reverse. -/
def jlookup (kvs : List (String × Json)) (k : String) : Option Json :=
  kvs.reverse.lookup k

/-- Exceptions that the quiz application can raise to its caller. -/
inductive PyErr : Type where
  | keyError (k : String)
  | typeError (msg : String)
  | attributeError (msg : String)
deriving DecidableEq

/-- `to_dict` of each class (lines 32-41, 80-89, 115-123): a tagged record. -/
def PyQuestion.to_dict : PyQuestion → Json
  | .plain qt ca =>
      .obj [("type", .str "Question"),
            ("question_text", .str qt),
            ("correct_answer", .str ca)]
  | .mc qt cs ca =>
      .obj [("type", .str "MultipleChoice"),
            ("question_text", .str qt),
            ("choices", .arr (cs.map Json.str)),
            ("correct_answer", .str ca)]
  | .tf qt ca =>
      .obj [("type", .str "TrueFalse"),
            ("question_text", .str qt),
            ("correct_answer", .str ca)]

/-- Read a JSON array of strings (the `choices` field).  Python accepts
arbitrary element values and fails only later, at grading time; the
embedding surfaces that type mismatch here instead. -/
def getStrList : List Json → Option (List String)
  | [] => some []
  | .str s :: rest => (getStrList rest).map (fun l => s :: l)
  | _ :: _ => none

/-- `Question.from_dict` (lines 43-49): requires `question_text` and
`correct_answer`; a missing key raises `KeyError` (fields are read left
to right, so the first missing key is reported).  Python stores
non-string field values unchecked and fails at use; the embedding
reports the mismatch here. -/
def Question.from_dict (kvs : List (String × Json)) : Except PyErr PyQuestion :=
  match jlookup kvs "question_text" with
  | none => .error (.keyError "question_text")
  | some qt =>
    match jlookup kvs "correct_answer" with
    | none => .error (.keyError "correct_answer")
    | some ca =>
      match qt, ca with
      | .str q, .str c => .ok (.plain q c)
      | _, _ => .error (.typeError "field value is not a string")

/-- `MultipleChoiceQuestion.from_dict` (lines 91-96): requires
`question_text`, `choices`, `correct_answer`, read in that order. -/
def MultipleChoiceQuestion.from_dict (kvs : List (String × Json)) :
    Except PyErr PyQuestion :=
  match jlookup kvs "question_text" with
  | none => .error (.keyError "question_text")
  | some qt =>
    match jlookup kvs "choices" with
    | none => .error (.keyError "choices")
    | some cs =>
      match jlookup kvs "correct_answer" with
      | none => .error (.keyError "correct_answer")
      | some ca =>
        match qt, cs, ca with
        | .str q, .arr xs, .str c =>
          match getStrList xs with
          | some l => .ok (.mc q l c)
          | none => .error (.typeError "choices element is not a string")
        | _, _, _ => .error (.typeError "field value is not a string")

/-- `TrueFalseQuestion.from_dict` (lines 125-130). -/
def TrueFalseQuestion.from_dict (kvs : List (String × Json)) :
    Except PyErr PyQuestion :=
  match jlookup kvs "question_text" with
  | none => .error (.keyError "question_text")
  | some qt =>
    match jlookup kvs "correct_answer" with
    | none => .error (.keyError "correct_answer")
    | some ca =>
      match qt, ca with
      | .str q, .str c => .ok (.tf q c)
      | _, _ => .error (.typeError "field value is not a string")

/-- `QuizManager.create_question` (lines 167-179): dispatch on
`data["type"]`; unknown (or non-string) discriminators fall through to
the base `Question.from_dict`.  Subscripting a non-dict raises
`TypeError`. -/
def QuizManager.create_question (data : Json) : Except PyErr PyQuestion :=
  match data with
  | .obj kvs =>
    match jlookup kvs "type" with
    | none => .error (.keyError "type")
    | some t =>
      match t with
      | .str s =>
        if s = "MultipleChoice" then MultipleChoiceQuestion.from_dict kvs
        else if s = "TrueFalse" then TrueFalseQuestion.from_dict kvs
        else Question.from_dict kvs
      | _ => Question.from_dict kvs
  | _ => .error (.typeError "record is not subscriptable")

/-! ## The QuizManager state (quiz_app.py lines 137-288) -/

/-- `self.quizzes`: a Python dict from quiz name to question list,
modelled as an insertion-ordered association list (dict keys are
unique; `json.load` deduplicates before the manager ever sees them). -/
abbrev Quizzes : Type := List (String × List PyQuestion)

/-- Python `quiz_name in self.quizzes`. -/
def containsKey (m : Quizzes) (name : String) : Bool :=
  m.any (fun nv => nv.1 == name)

/-- Python `self.quizzes[quiz_name]` (first occurrence; keys are unique). -/
def mlookup : Quizzes → String → Option (List PyQuestion)
  | [], _ => none
  | nv :: m, name => if nv.1 == name then some nv.2 else mlookup m name

/-- The dict keys `self.quizzes.keys()`, in insertion order. -/
def quizNames (m : Quizzes) : List String :=
  m.map (fun nv => nv.1)

/-- In-place mutation of the list stored under `name` (Python mutates the
list object obtained by `self.quizzes[quiz_name]`; the dict keys are
untouched). -/
def mupdate (m : Quizzes) (name : String) (qs : List PyQuestion) : Quizzes :=
  m.map (fun nv => if nv.1 == name then (nv.1, qs) else nv)

/-- Outcome reported by `add_quiz` (lines 190-198). -/
inductive AddResult : Type where
  | created
  | alreadyExists
deriving DecidableEq

/-- `QuizManager.add_quiz` (lines 190-198): insert an empty question list
under a fresh name; report "Quiz already exists!" and leave the mapping
unchanged otherwise. -/
def QuizManager.add_quiz (m : Quizzes) (name : String) : Quizzes × AddResult :=
  if containsKey m name then (m, .alreadyExists)
  else (m ++ [(name, [])], .created)

/-- Outcome reported by `remove_question_from_quiz` (lines 258-279). -/
inductive RemoveResult : Type where
  | noQuestions
  | removed (q : PyQuestion)
  | invalidNumber
  | invalidInput
deriving DecidableEq

/-- Lines 263-279 of `remove_question_from_quiz`, acting on the fetched
question list: empty list reports "No questions to remove!";
`int(input())` failure reports "Invalid input!"; an in-range 1-based
number pops that question; any other number reports
"Invalid question number!". -/
def removeQuestionList (questions : List PyQuestion) (inp : String) :
    List PyQuestion × RemoveResult :=
  match questions with
  | [] => ([], .noQuestions)
  | _ :: _ =>
    match pyInt inp with
    | none => (questions, .invalidInput)
    | some choice =>
      if h : 1 ≤ choice ∧ choice ≤ (questions.length : Int) then
        (questions.eraseIdx (choice - 1).toNat,
         .removed (questions.get ⟨(choice - 1).toNat, by omega⟩))
      else (questions, .invalidNumber)

/-- `QuizManager.remove_question_from_quiz` (lines 258-279):
`self.quizzes[quiz_name]` raises `KeyError` on an absent name (callers
guard this); otherwise the fetched list is mutated in place. -/
def QuizManager.remove_question_from_quiz (m : Quizzes) (name inp : String) :
    Quizzes × Except PyErr RemoveResult :=
  match mlookup m name with
  | none => (m, .error (.keyError name))
  | some qs =>
    let r := removeQuestionList qs inp
    (mupdate m name r.1, .ok r.2)

/-- Append a freshly built question: `self.quizzes[quiz_name].append(question)`
(line 255); raises `KeyError` when the name is absent. -/
def appendQuestion (m : Quizzes) (name : String) (q : PyQuestion) :
    Quizzes × Option PyErr :=
  match mlookup m name with
  | none => (m, some (.keyError name))
  | some qs => (mupdate m name (qs ++ [q]), none)

/-- `QuizManager.add_question_to_quiz` (lines 227-256).  The interactive
prompts are modelled by passing the entered lines as arguments: the
question-type menu choice, the question text, the comma-separated
choice line (read only for option "1"), and the correct answer.  An
unrecognised menu choice reports "Invalid option!" and returns without
touching the state. -/
def QuizManager.add_question_to_quiz (m : Quizzes) (name : String)
    (typeChoice text choicesLine answerLine : String) : Quizzes × Option PyErr :=
  if typeChoice == "1" then
    appendQuestion m name (.mc text (choicesLine.splitOn ",") answerLine)
  else if typeChoice == "2" then
    appendQuestion m name (.tf text answerLine)
  else if typeChoice == "3" then
    appendQuestion m name (.plain text answerLine)
  else (m, none)

/-- `QuizManager.view_questions` (lines 281-288): prints the 1-indexed
question prompts; `self.quizzes[quiz_name]` raises `KeyError` on an
absent name.  The state is returned unchanged to make the read-only
nature explicit. -/
def QuizManager.view_questions (m : Quizzes) (name : String) :
    Quizzes × Except PyErr (List String) :=
  match mlookup m name with
  | none => (m, .error (.keyError name))
  | some qs =>
    (m, .ok (("Questions in Quiz " ++ name ++ ":")
       :: (qs.enum.map fun iq => toString (iq.1 + 1) ++ ". " ++ iq.2.question_text)))

/-- `QuizManager.display_quizzes` (lines 181-188): prints the 1-indexed
quiz names; the state is returned unchanged. -/
def QuizManager.display_quizzes (m : Quizzes) : Quizzes × List String :=
  (m, "Available Quizzes:"
     :: (m.enum.map fun inv => toString (inv.1 + 1) ++ ". " ++ inv.2.1))

/-- One iteration of the `edit_quiz` menu loop (lines 208-225), with the
interactive inputs of the chosen sub-operation attached.  `menuChoice`
is the raw line read at "Select an option: "; "4" exits the loop. -/
inductive EditCmd : Type where
  | cmd (menuChoice : String) (typeChoice text choicesLine answerLine removeLine : String)

/-- The body of the `edit_quiz` while-loop, consuming the scripted menu
choices in order; the source loops until choice "4" (or, in the model,
until the script is exhausted). -/
def editLoop (name : String) : Quizzes → List EditCmd → Quizzes
  | m, [] => m
  | m, .cmd menuChoice tc text cl al rl :: rest =>
    if menuChoice == "1" then
      editLoop name (QuizManager.add_question_to_quiz m name tc text cl al).1 rest
    else if menuChoice == "2" then
      editLoop name (QuizManager.remove_question_from_quiz m name rl).1 rest
    else if menuChoice == "3" then
      editLoop name (QuizManager.view_questions m name).1 rest
    else if menuChoice == "4" then m
    else editLoop name m rest

/-- `QuizManager.edit_quiz` (lines 200-225): reports "Quiz not found!"
and returns immediately when the name is absent; otherwise runs the
interactive sub-loop. -/
def QuizManager.edit_quiz (m : Quizzes) (name : String) (cmds : List EditCmd) : Quizzes :=
  if containsKey m name then editLoop name m cmds else m

/-! ## Persistence (quiz_app.py lines 146-165) -/

/-- The persistent file as seen by `load_quizzes`: absent
(`FileNotFoundError`), present but not JSON (`json.JSONDecodeError`), or
parsed to a JSON value. -/
inductive FileState : Type where
  | missing
  | invalidJson
  | parsed (j : Json)

/-- Left-to-right effectful map, the semantics of a Python list/dict
comprehension: the first exception raised propagates. -/
def mapExcept {α β : Type} (f : α → Except PyErr β) : List α → Except PyErr (List β)
  | [] => .ok []
  | x :: xs =>
    match f x with
    | .error e => .error e
    | .ok y =>
      match mapExcept f xs with
      | .error e => .error e
      | .ok ys => .ok (y :: ys)

/-- One entry of the load comprehension (line 155):
`[self.create_question(q) for q in questions]`.  A JSON array iterates
its elements; an empty string or empty object iterates to nothing; any
other value either is not iterable or yields non-subscriptable items,
raising a `TypeError` that `load_quizzes` does not catch. -/
def loadEntry (nv : String × Json) : Except PyErr (String × List PyQuestion) :=
  match nv.2 with
  | .arr qs =>
    match mapExcept QuizManager.create_question qs with
    | .error e => .error e
    | .ok l => .ok (nv.1, l)
  | .str "" => .ok (nv.1, [])
  | .obj [] => .ok (nv.1, [])
  | _ => .error (.typeError "value does not iterate to records")

/-- `QuizManager.load_quizzes` (lines 146-157): only `FileNotFoundError`
and `json.JSONDecodeError` are caught (yielding the empty mapping); a
parsed value that is not a dict raises `AttributeError` at
`data.items()`, and `create_question` exceptions propagate. -/
def QuizManager.load_quizzes : FileState → Except PyErr Quizzes
  | .missing => .ok []
  | .invalidJson => .ok []
  | .parsed (.obj kvs) => mapExcept loadEntry kvs
  | .parsed _ => .error (.attributeError "items")

/-- `QuizManager.save_quizzes` (lines 159-165): the JSON value written to
the file. -/
def QuizManager.save_quizzes (m : Quizzes) : Json :=
  .obj (m.map fun nv => (nv.1, .arr (nv.2.map PyQuestion.to_dict)))

/-! ## The Quiz runner (quiz_app.py lines 295-322) -/

/-- The 30-dash separator printed by `Quiz.start`. -/
def quizSeparator : String := "------------------------------"

/-- The for-loop of `Quiz.start` (lines 311-319): one block of output per
question (header, display, verdict), accumulating the score.  `answers`
is the scripted sequence of `input()` lines; the interactive program
would block if it ran out, so the loop simply stops there. -/
def quizLoop : List PyQuestion → List String → Nat → Nat → Nat × List String
  | [], _, _, score => (score, [])
  | _ :: _, [], _, score => (score, [])
  | q :: qs, a :: as, idx, score =>
    let ok := q.is_correct a
    let feedback :=
      if ok then "Correct!"
      else "Wrong! The correct answer was: " ++ q.correct_answer
    let rest := quizLoop qs as (idx + 1) (if ok then score + 1 else score)
    (rest.1,
     (("Question " ++ toString idx ++ ":") :: q.display ++ [feedback]) ++ rest.2)

/-- `Quiz.start` (lines 303-322): banner, the graded loop, and the final
score line `score/len(questions)`.  Returns the final score and the full
output transcript. -/
def Quiz.start (questions : List PyQuestion) (answers : List String) :
    Nat × List String :=
  let r := quizLoop questions answers 1 0
  (r.1,
   ["Starting the Quiz!", quizSeparator] ++ r.2 ++ [quizSeparator]
     ++ ["Quiz Finished! Your score: " ++ toString r.1 ++ "/"
          ++ toString questions.length])

/-! ## fibonacci.py -/

/-- State of the loop in `fibonacci` (fibonacci.py lines 2-4) after `n`
iterations of `a, b = b, a + b`, starting from `a, b = 0, 1`. -/
def fibLoop : Nat → Nat × Nat
  | 0 => (0, 1)
  | n + 1 => ((fibLoop n).2, (fibLoop n).1 + (fibLoop n).2)

/-- `fibonacci(n)` (fibonacci.py lines 1-5): run the loop `n` times and
return `a`. -/
def fibonacci (n : Nat) : Nat := (fibLoop n).1

/-! ## Helper lemmas -/

theorem pyIndex_eq_none {α : Type} (l : List α) (i : Int)
    (h : i < -(l.length : Int) ∨ (l.length : Int) ≤ i) : pyIndex l i = none := by
  unfold pyIndex
  rcases h with h | h
  · rw [if_neg (by omega), if_neg (by omega)]
  · rw [if_pos (by omega), if_neg (by omega)]

theorem pyIndex_nonneg {α : Type} (l : List α) (i : Int)
    (h0 : 0 ≤ i) (h1 : i < (l.length : Int)) :
    pyIndex l i = l.get? i.toNat := by
  unfold pyIndex
  rw [if_pos h0, if_pos h1]

theorem pyIndex_neg {α : Type} (l : List α) (i : Int)
    (h0 : i < 0) (h1 : -(l.length : Int) ≤ i) :
    pyIndex l i = l.get? (i + (l.length : Int)).toNat := by
  unfold pyIndex
  rw [if_neg (by omega), if_pos h1]

theorem getStrList_map_str (cs : List String) :
    getStrList (cs.map Json.str) = some cs := by
  induction cs with
  | nil => rfl
  | cons c cs ih => simp [getStrList, ih]

theorem create_question_to_dict (q : PyQuestion) :
    QuizManager.create_question q.to_dict = .ok q := by
  cases q with
  | plain qt ca => rfl
  | mc qt cs ca =>
    rw [show QuizManager.create_question (PyQuestion.mc qt cs ca).to_dict
          = (match getStrList (cs.map Json.str) with
             | some l => Except.ok (PyQuestion.mc qt l ca)
             | none => Except.error (PyErr.typeError "choices element is not a string"))
        from rfl]
    rw [getStrList_map_str]
  | tf qt ca => rfl

theorem mapExcept_create_to_dict (l : List PyQuestion) :
    mapExcept QuizManager.create_question (l.map PyQuestion.to_dict) = .ok l := by
  induction l with
  | nil => rfl
  | cons q l ih => simp [mapExcept, create_question_to_dict, ih]

theorem load_save_entries (m : Quizzes) :
    mapExcept loadEntry (m.map fun nv => (nv.1, Json.arr (nv.2.map PyQuestion.to_dict)))
      = .ok m := by
  induction m with
  | nil => rfl
  | cons nv m ih => simp [mapExcept, loadEntry, mapExcept_create_to_dict, ih]

theorem mlookup_mupdate (m : Quizzes) (name : String) (l qs : List PyQuestion)
    (h : mlookup m name = some qs) :
    mlookup (mupdate m name l) name = some l := by
  induction m with
  | nil => simp [mlookup] at h
  | cons nv m ih =>
    by_cases hk : (nv.1 == name) = true
    · simp [mupdate, mlookup, hk]
    · simp only [mupdate, List.map_cons, hk, Bool.false_eq_true, if_false,
        mlookup] at h ⊢
      exact ih h

theorem quizNames_mupdate (m : Quizzes) (name : String) (l : List PyQuestion) :
    quizNames (mupdate m name l) = quizNames m := by
  induction m with
  | nil => rfl
  | cons nv m ih =>
    simp only [mupdate, quizNames, List.map_cons] at ih ⊢
    rw [ih]
    by_cases h : nv.1 == name <;> simp [h]

theorem quizNames_append_question (m : Quizzes) (name : String) (q : PyQuestion) :
    quizNames (appendQuestion m name q).1 = quizNames m := by
  unfold appendQuestion
  cases h : mlookup m name with
  | none => rfl
  | some qs => simpa using quizNames_mupdate m name (qs ++ [q])

theorem quizNames_add_question (m : Quizzes) (name tc text cl al : String) :
    quizNames (QuizManager.add_question_to_quiz m name tc text cl al).1 = quizNames m := by
  unfold QuizManager.add_question_to_quiz
  split_ifs <;> simp [quizNames_append_question]

theorem quizNames_remove_question (m : Quizzes) (name inp : String) :
    quizNames (QuizManager.remove_question_from_quiz m name inp).1 = quizNames m := by
  unfold QuizManager.remove_question_from_quiz
  cases h : mlookup m name with
  | none => rfl
  | some qs => simpa using quizNames_mupdate m name _

theorem quizNames_view (m : Quizzes) (name : String) :
    (QuizManager.view_questions m name).1 = m := by
  unfold QuizManager.view_questions
  cases h : mlookup m name <;> rfl

theorem quizNames_editLoop (name : String) (cmds : List EditCmd) :
    ∀ m : Quizzes, quizNames (editLoop name m cmds) = quizNames m := by
  induction cmds with
  | nil => intro m; rfl
  | cons c cmds ih =>
    intro m
    cases c with
    | cmd mc tc text cl al rl =>
      unfold editLoop
      split_ifs
      · rw [ih, quizNames_add_question]
      · rw [ih, quizNames_remove_question]
      · rw [ih, quizNames_view]
      · rfl
      · exact ih m

theorem lastLine_append {α : Type} (l : List α) (x : α) :
    (l ++ [x]).getLast? = some x := by
  induction l with
  | nil => rfl
  | cons a l ih =>
    cases l with
    | nil => rfl
    | cons b l => simpa using ih

theorem quizLoop_score (qs : List PyQuestion) :
    ∀ (answers : List String) (idx score : Nat),
      (quizLoop qs answers idx score).1
        = score + ((qs.zip answers).countP fun p => p.1.is_correct p.2) := by
  induction qs with
  | nil => intro answers idx score; simp [quizLoop]
  | cons q qs ih =>
    intro answers idx score
    cases answers with
    | nil => simp [quizLoop]
    | cons a as =>
      simp only [quizLoop, List.zip_cons_cons, List.countP_cons, ih]
      by_cases h : q.is_correct a
      · simp [h]; omega
      · simp [h]

theorem fibLoop_eq (n : Nat) : fibLoop n = (Nat.fib n, Nat.fib (n + 1)) := by
  induction n with
  | zero => rfl
  | succ n ih => simp [fibLoop, ih, Nat.fib_add_two]

/-! ## Claim theorems -/

/-- C10: `fibonacci` computes the Fibonacci sequence under the convention
F(0) = 0, F(1) = 1, F(n+2) = F(n+1) + F(n): it agrees with Mathlib's
`Nat.fib` everywhere, and in particular satisfies the three defining
equations. -/
theorem fibonacci_is_fib :
    (∀ n, fibonacci n = Nat.fib n) ∧
    fibonacci 0 = 0 ∧ fibonacci 1 = 1 ∧
    (∀ n, fibonacci (n + 2) = fibonacci (n + 1) + fibonacci n) := by
  have key : ∀ n, fibonacci n = Nat.fib n := fun n => by
    simp [fibonacci, fibLoop_eq]
  exact ⟨key, by simp [key], by simp [key], fun n => by
    simp [key, Nat.fib_add_two, Nat.add_comm]⟩

/-- C8: for Plain and TrueFalse questions, `is_correct` returns true
exactly when the stripped, lower-cased answer equals the stripped,
lower-cased `correct_answer`; hence grading is insensitive to
leading/trailing whitespace and to letter case, and in particular
`is_correct " True "` always equals `is_correct "true"`. -/
theorem plain_tf_is_correct_insensitive (qt ca a b : String) :
    (PyQuestion.is_correct (.plain qt ca) a = true ↔ pyNorm a = pyNorm ca) ∧
    (PyQuestion.is_correct (.tf qt ca) a = true ↔ pyNorm a = pyNorm ca) ∧
    (pyNorm a = pyNorm b →
      PyQuestion.is_correct (.plain qt ca) a = PyQuestion.is_correct (.plain qt ca) b ∧
      PyQuestion.is_correct (.tf qt ca) a = PyQuestion.is_correct (.tf qt ca) b) ∧
    PyQuestion.is_correct (.plain qt ca) " True "
      = PyQuestion.is_correct (.plain qt ca) "true" ∧
    PyQuestion.is_correct (.tf qt ca) " True "
      = PyQuestion.is_correct (.tf qt ca) "true" := by
  have hnorm : pyNorm " True " = pyNorm "true" := by decide
  refine ⟨?_, ?_, ?_, ?_, ?_⟩
  · simp [PyQuestion.is_correct, Question.is_correct]
  · simp [PyQuestion.is_correct, Question.is_correct]
  · intro h
    constructor <;> simp [PyQuestion.is_correct, Question.is_correct, h]
  · simp [PyQuestion.is_correct, Question.is_correct, hnorm]
  · simp [PyQuestion.is_correct, Question.is_correct, hnorm]

/-- C8 witness: a TrueFalse question with correct answer "True" grades
" TRUE " and "true" identically, by the insensitivity theorem. -/
theorem plain_tf_is_correct_insensitive_witness :
    PyQuestion.is_correct (.tf "Is fire hot?" "True") " TRUE "
      = PyQuestion.is_correct (.tf "Is fire hot?" "True") "true" :=
  ((plain_tf_is_correct_insensitive "Is fire hot?" "True" " TRUE " "true").2.2.1
    (by decide)).2

/-- C2: serializing any question with `to_dict` and deserializing the
record with `QuizManager.create_question` reconstructs the question
exactly — same variant, same display text (choice labels included), and
the same grading outcome on every answer string. -/
theorem serialize_roundtrip (q : PyQuestion) :
    ∃ q2, QuizManager.create_question q.to_dict = Except.ok q2 ∧
      q2 = q ∧ q2.display = q.display ∧
      (∀ a, q2.is_correct a = q.is_correct a) :=
  ⟨q, create_question_to_dict q, rfl, rfl, fun _ => rfl⟩

/-- C1 counterexample: the claim says every numeric answer outside
[1, length choices] grades false, but with choices ["Rome"] and correct
answer "Rome" the answer "0" — numeric value 0, outside [1, 1] — grades
true: `int("0") - 1 = -1`, and Python negative indexing selects the last
choice instead of raising IndexError. -/
theorem mc_is_correct_counterexample :
    MultipleChoiceQuestion.is_correct ["Rome"] "Rome" "0" = true ∧
    pyInt "0" = some 0 ∧ ¬(1 ≤ (0 : Int) ∧ (0 : Int) ≤ ([ "Rome" ] : List String).length) := by
  refine ⟨by decide, by decide, ?_⟩
  intro h
  exact absurd h.1 (by decide)

/-- C1 (amended): `is_correct` of a MultipleChoice question parses the
answer as an integer; non-numeric answers and numeric values outside
[1 - length choices, length choices] grade false, values in
[1, length choices] select the 1-based choice, and values in
[1 - length choices, 0] select from the end of the list (Python negative
indexing, index length + value - 1); a selected choice grades true
exactly when its stripped lower-cased text equals that of
`correct_answer`.  The function is total, so no error reaches the
caller.  The spec's concrete examples all hold. -/
theorem mc_is_correct_characterization (cs : List String) (ca a : String) :
    (pyInt a = none → MultipleChoiceQuestion.is_correct cs ca a = false) ∧
    (∀ v : Int, pyInt a = some v → v ≤ -(cs.length : Int) ∨ (cs.length : Int) < v →
      MultipleChoiceQuestion.is_correct cs ca a = false) ∧
    (∀ (v : Int) (c : String), pyInt a = some v → 1 ≤ v → v ≤ (cs.length : Int) →
      cs.get? (v - 1).toNat = some c →
      MultipleChoiceQuestion.is_correct cs ca a = (pyNorm c == pyNorm ca)) ∧
    (∀ (v : Int) (c : String), pyInt a = some v →
      1 - (cs.length : Int) ≤ v → v ≤ 0 →
      cs.get? (v - 1 + (cs.length : Int)).toNat = some c →
      MultipleChoiceQuestion.is_correct cs ca a = (pyNorm c == pyNorm ca)) ∧
    MultipleChoiceQuestion.is_correct ["Paris", "London", "Rome"] "Paris" "1" = true ∧
    MultipleChoiceQuestion.is_correct ["Paris", "London", "Rome"] "Paris" "2" = false ∧
    MultipleChoiceQuestion.is_correct ["Paris", "London", "Rome"] "Paris" "9" = false ∧
    MultipleChoiceQuestion.is_correct ["Paris", "London", "Rome"] "Paris" "abc" = false := by
  refine ⟨?_, ?_, ?_, ?_, by decide, by decide, by decide, by decide⟩
  · intro h
    simp [MultipleChoiceQuestion.is_correct, h]
  · intro v hv hr
    have : pyIndex cs (v - 1) = none := pyIndex_eq_none cs (v - 1) (by omega)
    simp [MultipleChoiceQuestion.is_correct, hv, this]
  · intro v c hv h1 h2 hc
    have : pyIndex cs (v - 1) = some c := by
      rw [pyIndex_nonneg cs (v - 1) (by omega) (by omega)]
      exact hc
    simp [MultipleChoiceQuestion.is_correct, hv, this]
  · intro v c hv h1 h2 hc
    have : pyIndex cs (v - 1) = some c := by
      have hlen : 0 < cs.length := by omega
      rw [pyIndex_neg cs (v - 1) (by omega) (by omega)]
      exact hc
    simp [MultipleChoiceQuestion.is_correct, hv, this]

/-- C1 witness: the characterization applied at concrete inputs — "1"
selects "Paris" (in-range branch), and "0" with correct answer "Rome"
selects the last choice (negative-index branch). -/
theorem mc_is_correct_characterization_witness :
    MultipleChoiceQuestion.is_correct ["Paris", "London", "Rome"] "Paris" "1"
      = (pyNorm "Paris" == pyNorm "Paris") ∧
    MultipleChoiceQuestion.is_correct ["Paris", "London", "Rome"] "Rome" "0"
      = (pyNorm "Rome" == pyNorm "Rome") := by
  constructor
  · exact (mc_is_correct_characterization ["Paris", "London", "Rome"] "Paris" "1").2.2.1
      1 "Paris" (by decide) (by decide) (by decide) (by decide)
  · exact (mc_is_correct_characterization ["Paris", "London", "Rome"] "Rome" "0").2.2.2.1
      0 "Rome" (by decide) (by decide) (by decide) (by decide)

/-- C6: `add_quiz` inserts an empty question list under an absent name
and reports "already exists", leaving the mapping unchanged, for a
present one; hence adding "Geo" twice from a state without "Geo" leaves
exactly one quiz named "Geo", with an empty list, and the second call is
a reported no-op. -/
theorem add_quiz_spec (m : Quizzes) (name : String) :
    (containsKey m name = false →
      QuizManager.add_quiz m name = (m ++ [(name, [])], .created)) ∧
    (containsKey m name = true →
      QuizManager.add_quiz m name = (m, .alreadyExists)) ∧
    (containsKey m "Geo" = false →
      (QuizManager.add_quiz (QuizManager.add_quiz m "Geo").1 "Geo").1
        = (QuizManager.add_quiz m "Geo").1 ∧
      (QuizManager.add_quiz (QuizManager.add_quiz m "Geo").1 "Geo").2
        = .alreadyExists ∧
      (QuizManager.add_quiz (QuizManager.add_quiz m "Geo").1 "Geo").1.filter
          (fun nv => nv.1 == "Geo") = [("Geo", [])]) := by
  refine ⟨fun h => by simp [QuizManager.add_quiz, h], fun h => by
    simp [QuizManager.add_quiz, h], fun h => ?_⟩
  have h1 : QuizManager.add_quiz m "Geo" = (m ++ [("Geo", [])], .created) := by
    simp [QuizManager.add_quiz, h]
  have hck : containsKey (m ++ [("Geo", [])]) "Geo" = true := by
    simp [containsKey]
  have hfm : m.filter (fun nv => nv.1 == "Geo") = [] := by
    rw [List.filter_eq_nil_iff]
    intro a ha hpa
    have : containsKey m "Geo" = true :=
      List.any_eq_true.mpr ⟨a, ha, hpa⟩
    rw [this] at h
    cases h
  rw [h1]
  simp [QuizManager.add_quiz, hck, List.filter_append, hfm]

/-- C6 witness: adding "Geo" twice to the empty manager creates it once
and reports duplication on the second call. -/
theorem add_quiz_spec_witness :
    QuizManager.add_quiz [] "Geo" = ([("Geo", [])], .created) ∧
    (QuizManager.add_quiz (QuizManager.add_quiz [] "Geo").1 "Geo").2
      = .alreadyExists :=
  ⟨(add_quiz_spec [] "Geo").1 (by decide),
   ((add_quiz_spec [] "Geo").2.2 (by decide)).2.1⟩

/-- C5: removing by a valid 1-based index removes exactly that question,
returns it, and keeps the rest in order; an empty list, a non-numeric
line, or an out-of-range number each report a failure and leave the list
unchanged; at the manager level the named entry is replaced by the
updated list and the outcome of the list operation is reported, with no
exception. -/
theorem remove_question_spec (qs : List PyQuestion) (inp : String) :
    removeQuestionList [] inp = ([], .noQuestions) ∧
    (qs ≠ [] → pyInt inp = none →
      removeQuestionList qs inp = (qs, .invalidInput)) ∧
    (∀ v : Int, qs ≠ [] → pyInt inp = some v →
      ¬(1 ≤ v ∧ v ≤ (qs.length : Int)) →
      removeQuestionList qs inp = (qs, .invalidNumber)) ∧
    (∀ (v : Int) (q : PyQuestion), pyInt inp = some v →
      1 ≤ v → v ≤ (qs.length : Int) →
      qs.get? (v - 1).toNat = some q →
      removeQuestionList qs inp
        = (qs.take (v - 1).toNat ++ qs.drop ((v - 1).toNat + 1), .removed q)) ∧
    (∀ (m : Quizzes) (name : String), mlookup m name = some qs →
      (QuizManager.remove_question_from_quiz m name inp).2
          = .ok (removeQuestionList qs inp).2 ∧
      mlookup (QuizManager.remove_question_from_quiz m name inp).1 name
          = some (removeQuestionList qs inp).1) := by
  refine ⟨rfl, ?_, ?_, ?_, ?_⟩
  · intro hne h
    cases qs with
    | nil => exact absurd rfl hne
    | cons q rest => simp [removeQuestionList, h]
  · intro v hne hv hr
    cases qs with
    | nil => exact absurd rfl hne
    | cons q rest =>
      simp only [removeQuestionList, hv]
      rw [dif_neg hr]
  · intro v q hv h1 h2 hq
    cases qs with
    | nil => simp at h2; omega
    | cons q0 rest =>
      simp only [removeQuestionList, hv]
      rw [dif_pos ⟨h1, h2⟩, List.eraseIdx_eq_take_drop_succ]
      obtain ⟨hlt, hget⟩ := List.get?_eq_some.mp hq
      subst hget
      rfl
  · intro m name hm
    simp [QuizManager.remove_question_from_quiz, hm,
      mlookup_mupdate m name _ qs hm]

/-- C5 witness: removing question number 1 of two pops exactly the first
and keeps the second; a non-numeric line leaves a one-question list
unchanged. -/
theorem remove_question_spec_witness :
    removeQuestionList [PyQuestion.plain "A" "a", PyQuestion.plain "B" "b"] "1"
      = ([PyQuestion.plain "B" "b"], .removed (PyQuestion.plain "A" "a")) ∧
    removeQuestionList [PyQuestion.plain "A" "a"] "xyz"
      = ([PyQuestion.plain "A" "a"], .invalidInput) := by
  constructor
  · exact (remove_question_spec
        [PyQuestion.plain "A" "a", PyQuestion.plain "B" "b"] "1").2.2.2.1
      1 (PyQuestion.plain "A" "a") (by decide) (by decide) (by decide) (by decide)
  · exact (remove_question_spec [PyQuestion.plain "A" "a"] "xyz").2.1
      (by decide) (by decide)

/-- C7: `create_question` dispatches on the record's "type" field —
"MultipleChoice" and "TrueFalse" build their variants, any other
discriminator (any other string, or any non-string value) falls back to
the Plain variant instead of failing, and a record missing a key its
variant requires fails with a KeyError (the MissingField error) naming
that key. -/
theorem create_question_dispatch (kvs : List (String × Json)) :
    (jlookup kvs "type" = none →
      QuizManager.create_question (.obj kvs) = .error (.keyError "type")) ∧
    (∀ (qt ca : String) (cs : List String),
      jlookup kvs "type" = some (.str "MultipleChoice") →
      jlookup kvs "question_text" = some (.str qt) →
      jlookup kvs "choices" = some (.arr (cs.map Json.str)) →
      jlookup kvs "correct_answer" = some (.str ca) →
      QuizManager.create_question (.obj kvs) = .ok (.mc qt cs ca)) ∧
    (∀ qt ca : String,
      jlookup kvs "type" = some (.str "TrueFalse") →
      jlookup kvs "question_text" = some (.str qt) →
      jlookup kvs "correct_answer" = some (.str ca) →
      QuizManager.create_question (.obj kvs) = .ok (.tf qt ca)) ∧
    (∀ s qt ca : String,
      jlookup kvs "type" = some (.str s) →
      s ≠ "MultipleChoice" → s ≠ "TrueFalse" →
      jlookup kvs "question_text" = some (.str qt) →
      jlookup kvs "correct_answer" = some (.str ca) →
      QuizManager.create_question (.obj kvs) = .ok (.plain qt ca)) ∧
    (∀ t : Json, jlookup kvs "type" = some t → (∀ s, t ≠ .str s) →
      ∀ qt ca : String,
      jlookup kvs "question_text" = some (.str qt) →
      jlookup kvs "correct_answer" = some (.str ca) →
      QuizManager.create_question (.obj kvs) = .ok (.plain qt ca)) ∧
    (∀ t : Json, jlookup kvs "type" = some t →
      jlookup kvs "question_text" = none →
      QuizManager.create_question (.obj kvs) = .error (.keyError "question_text")) ∧
    (∀ qt : Json,
      jlookup kvs "type" = some (.str "MultipleChoice") →
      jlookup kvs "question_text" = some qt →
      jlookup kvs "choices" = none →
      QuizManager.create_question (.obj kvs) = .error (.keyError "choices")) ∧
    (∀ qt cs : Json,
      jlookup kvs "type" = some (.str "MultipleChoice") →
      jlookup kvs "question_text" = some qt →
      jlookup kvs "choices" = some cs →
      jlookup kvs "correct_answer" = none →
      QuizManager.create_question (.obj kvs) = .error (.keyError "correct_answer")) ∧
    (∀ (s : String) (qt : Json),
      jlookup kvs "type" = some (.str s) → s ≠ "MultipleChoice" →
      jlookup kvs "question_text" = some qt →
      jlookup kvs "correct_answer" = none →
      QuizManager.create_question (.obj kvs) = .error (.keyError "correct_answer")) := by
  refine ⟨?_, ?_, ?_, ?_, ?_, ?_, ?_, ?_, ?_⟩
  · intro h
    simp [QuizManager.create_question, h]
  · intro qt ca cs ht hqt hcs hca
    simp [QuizManager.create_question, ht, MultipleChoiceQuestion.from_dict,
      hqt, hcs, hca, getStrList_map_str]
  · intro qt ca ht hqt hca
    simp [QuizManager.create_question, ht, TrueFalseQuestion.from_dict, hqt, hca]
  · intro s qt ca ht hs1 hs2 hqt hca
    simp [QuizManager.create_question, ht, hs1, hs2, Question.from_dict, hqt, hca]
  · intro t ht hns qt ca hqt hca
    cases t with
    | str s => exact absurd rfl (hns s)
    | null => simp [QuizManager.create_question, ht, Question.from_dict, hqt, hca]
    | bool b => simp [QuizManager.create_question, ht, Question.from_dict, hqt, hca]
    | num n => simp [QuizManager.create_question, ht, Question.from_dict, hqt, hca]
    | arr xs => simp [QuizManager.create_question, ht, Question.from_dict, hqt, hca]
    | obj kvs2 => simp [QuizManager.create_question, ht, Question.from_dict, hqt, hca]
  · intro t ht hqt
    cases t with
    | str s =>
      by_cases h1 : s = "MultipleChoice"
      · simp [QuizManager.create_question, ht, h1,
          MultipleChoiceQuestion.from_dict, hqt]
      · by_cases h2 : s = "TrueFalse"
        · simp [QuizManager.create_question, ht, h1, h2,
            TrueFalseQuestion.from_dict, hqt]
        · simp [QuizManager.create_question, ht, h1, h2, Question.from_dict, hqt]
    | null => simp [QuizManager.create_question, ht, Question.from_dict, hqt]
    | bool b => simp [QuizManager.create_question, ht, Question.from_dict, hqt]
    | num n => simp [QuizManager.create_question, ht, Question.from_dict, hqt]
    | arr xs => simp [QuizManager.create_question, ht, Question.from_dict, hqt]
    | obj kvs2 => simp [QuizManager.create_question, ht, Question.from_dict, hqt]
  · intro qt ht hqt hcs
    simp [QuizManager.create_question, ht, MultipleChoiceQuestion.from_dict, hqt, hcs]
  · intro qt cs ht hqt hcs hca
    simp [QuizManager.create_question, ht, MultipleChoiceQuestion.from_dict,
      hqt, hcs, hca]
  · intro s qt ht hs hqt hca
    by_cases h2 : s = "TrueFalse"
    · simp [QuizManager.create_question, ht, hs, h2,
        TrueFalseQuestion.from_dict, hqt, hca]
    · simp [QuizManager.create_question, ht, hs, h2, Question.from_dict, hqt, hca]

/-- C7 witness: a record tagged "Capital" — an unknown discriminator —
builds a Plain question, and a "TrueFalse" record without
`question_text` fails with a KeyError naming that field. -/
theorem create_question_dispatch_witness :
    QuizManager.create_question
        (.obj [("type", Json.str "Capital"),
               ("question_text", Json.str "Q"),
               ("correct_answer", Json.str "A")])
      = .ok (.plain "Q" "A") ∧
    QuizManager.create_question (.obj [("type", Json.str "TrueFalse")])
      = .error (.keyError "question_text") := by
  constructor
  · exact (create_question_dispatch
        [("type", Json.str "Capital"),
         ("question_text", Json.str "Q"),
         ("correct_answer", Json.str "A")]).2.2.2.1
      "Capital" "Q" "A" rfl (by decide) (by decide) rfl rfl
  · exact (create_question_dispatch [("type", Json.str "TrueFalse")]).2.2.2.2.2.1
      (Json.str "TrueFalse") rfl rfl

/-- C3 counterexample: content that is valid JSON but not the expected
shape crashes `load_quizzes` instead of yielding an empty mapping — a
top-level object whose entry lacks `question_text` raises an uncaught
KeyError, and a top-level array raises an uncaught AttributeError at
`data.items()` — contradicting the claim that malformed content never
causes a crash and surfaces no error. -/
theorem load_quizzes_counterexample :
    QuizManager.load_quizzes
        (.parsed (.obj [("Quiz1", .arr [.obj [("type", Json.str "Question")]])]))
      = .error (.keyError "question_text") ∧
    QuizManager.load_quizzes (.parsed (.arr []))
      = .error (.attributeError "items") := by
  exact ⟨rfl, rfl⟩

/-- C3 (amended): `load_quizzes` yields the empty mapping, with no error,
when the file is missing or its content fails JSON parsing; content that
parses to the expected shape — in particular anything `save_quizzes`
wrote — is reconstructed exactly, every question going through
`create_question`; but JSON content of an unexpected shape raises an
uncaught error (AttributeError, TypeError or KeyError) instead of being
silently recovered. -/
theorem load_quizzes_amended :
    QuizManager.load_quizzes .missing = .ok [] ∧
    QuizManager.load_quizzes .invalidJson = .ok [] ∧
    (∀ m : Quizzes,
      QuizManager.load_quizzes (.parsed (QuizManager.save_quizzes m)) = .ok m) := by
  refine ⟨rfl, rfl, fun m => ?_⟩
  simp [QuizManager.load_quizzes, QuizManager.save_quizzes, load_save_entries]

/-- C4: the quiz runner grades the scripted answers against the
questions pairwise in order; the final score equals the number of
positions graded correct, and the last reported line is
"score/total".  The end-to-end example: one Plain question "2+2?" with
answer "4" scores 1/1 when answered "4", and 0/1 with the correct answer
"4" shown when answered "5". -/
theorem quiz_start_spec (qs : List PyQuestion) (answers : List String) :
    answers.length = qs.length →
    (Quiz.start qs answers).1
        = ((qs.zip answers).countP fun p => p.1.is_correct p.2) ∧
    (Quiz.start qs answers).2.getLast?
        = some ("Quiz Finished! Your score: "
            ++ toString (Quiz.start qs answers).1 ++ "/" ++ toString qs.length) ∧
    Quiz.start [.plain "2+2?" "4"] ["4"]
      = (1, ["Starting the Quiz!", quizSeparator, "Question 1:", "2+2?",
             "Correct!", quizSeparator, "Quiz Finished! Your score: 1/1"]) ∧
    Quiz.start [.plain "2+2?" "4"] ["5"]
      = (0, ["Starting the Quiz!", quizSeparator, "Question 1:", "2+2?",
             "Wrong! The correct answer was: 4", quizSeparator,
             "Quiz Finished! Your score: 0/1"]) := by
  intro _
  refine ⟨?_, ?_, by decide, by decide⟩
  · simp [Quiz.start, quizLoop_score]
  · have hshape : (Quiz.start qs answers).2
        = (["Starting the Quiz!", quizSeparator]
            ++ (quizLoop qs answers 1 0).2 ++ [quizSeparator])
          ++ ["Quiz Finished! Your score: "
              ++ toString (Quiz.start qs answers).1 ++ "/" ++ toString qs.length] := by
      simp [Quiz.start]
    rw [hshape, lastLine_append]

/-- C4 witness: the runner applied to the single-question "Math" quiz
with the scripted answer "4". -/
theorem quiz_start_spec_witness :
    Quiz.start [.plain "2+2?" "4"] ["4"]
      = (1, ["Starting the Quiz!", quizSeparator, "Question 1:", "2+2?",
             "Correct!", quizSeparator, "Quiz Finished! Your score: 1/1"]) :=
  (quiz_start_spec [.plain "2+2?" "4"] ["4"] rfl).2.2.1

/-- C9: no public manager operation removes a quiz: every quiz name
present before `add_quiz`, `add_question_to_quiz`,
`remove_question_from_quiz`, `view_questions`, `display_quizzes` or
`edit_quiz` (with any scripted sub-commands) is still present
afterwards. -/
theorem manager_never_deletes (m : Quizzes)
    (name k tc text cl al inp : String) (cmds : List EditCmd) :
    k ∈ quizNames m →
    k ∈ quizNames (QuizManager.add_quiz m name).1 ∧
    k ∈ quizNames (QuizManager.add_question_to_quiz m name tc text cl al).1 ∧
    k ∈ quizNames (QuizManager.remove_question_from_quiz m name inp).1 ∧
    k ∈ quizNames (QuizManager.view_questions m name).1 ∧
    k ∈ quizNames (QuizManager.display_quizzes m).1 ∧
    k ∈ quizNames (QuizManager.edit_quiz m name cmds) := by
  intro hk
  refine ⟨?_, ?_, ?_, ?_, ?_, ?_⟩
  · unfold QuizManager.add_quiz
    split_ifs
    · exact hk
    · simp only [quizNames, List.map_append]
      exact List.mem_append_left _ hk
  · rw [quizNames_add_question]; exact hk
  · rw [quizNames_remove_question]; exact hk
  · rw [quizNames_view]; exact hk
  · exact hk
  · unfold QuizManager.edit_quiz
    split_ifs
    · rw [quizNames_editLoop]; exact hk
    · exact hk

/-- C9 witness: the operations applied to a one-quiz state, including an
edit session that removes the quiz's only question: "Geo" survives them
all. -/
theorem manager_never_deletes_witness :
    "Geo" ∈ quizNames (QuizManager.add_quiz [("Geo", [PyQuestion.plain "Q" "A"])] "Hist").1 ∧
    "Geo" ∈ quizNames (QuizManager.edit_quiz [("Geo", [PyQuestion.plain "Q" "A"])] "Geo"
        [.cmd "2" "" "" "" "" "1"]) :=
  ⟨(manager_never_deletes [("Geo", [PyQuestion.plain "Q" "A"])]
      "Hist" "Geo" "1" "t" "a,b" "a" "1" [.cmd "2" "" "" "" "" "1"] (by decide)).1,
   (manager_never_deletes [("Geo", [PyQuestion.plain "Q" "A"])]
      "Geo" "Geo" "1" "t" "a,b" "a" "1" [.cmd "2" "" "" "" "" "1"] (by decide)).2.2.2.2.2⟩
